import Mathlib

/-!
Shallow embedding of the QuickBooks integration core of the My-Crm repository:
the `QuickBooksAPI` token/session client and the `QuickBooksDataSync`
orchestrator (both in `src/lib/quickbooks/data-sync.ts`, which concatenates
`data-sync.ts` and `quickbooks-api.ts`), the OAuth callback route handler
(`src/unnamed/part_000`, second document), and the OAuth configuration helpers
(`src/lib/quickbooks/auth.ts`).

Conventions of the embedding:
* JavaScript numbers that only ever participate in strict-equality tests
  (monetary amounts) are modelled as `Rat`; millisecond clock values
  (`Date.now()`, `tokenExpiresAt`) as `Int`.
* Optional / possibly-`undefined` values are `Option`; JavaScript string
  truthiness (`undefined`, `null` and `""` are falsy) is `strTruthy`.
* `await`-able vendor HTTP calls are modelled by letting the environment
  supply each call's outcome as an `Except RawError _` value.
-/

/-- JavaScript truthiness of an optional string: `undefined`/`null` and the
empty string are falsy, every other string is truthy. -/
def strTruthy : Option String → Bool
  | none => false
  | some s => !(s == "")

/-- JavaScript `a || b` for an optional string `a` and a string default `b`:
falls back to `b` when `a` is `undefined` or `""`. -/
def jsOrString : Option String → String → String
  | none, d => d
  | some s, d => if s == "" then d else s

/-- The single-quote character, used by the query builder around date bounds. -/
def sqChar : String := String.singleton (Char.ofNat 39)

/-- Raw transport-level failure of a vendor HTTP call: either a network
failure (no response) or an HTTP error status. -/
inductive RawError where
  | network : RawError
  | http (status : Nat) : RawError
deriving DecidableEq

/-- The error taxonomy exported by `src/lib/quickbooks/error-handling.ts` and
consumed by the integration page (`src/unnamed/part_000`). -/
inductive QuickBooksErrorType where
  | AUTHENTICATION : QuickBooksErrorType
  | CONNECTION : QuickBooksErrorType
  | RATE_LIMIT : QuickBooksErrorType
  | SERVER_ERROR : QuickBooksErrorType
  | INVALID_REQUEST : QuickBooksErrorType
  | UNKNOWN : QuickBooksErrorType
deriving DecidableEq

/-- Modelled from the spec: the classifier `handleQuickBooksError` lives in
`src/lib/quickbooks/error-handling.ts`, which is not among the provided source
files (only its importers are). Per SPEC section 7 it maps transport and HTTP
outcomes onto the taxonomy: network/transport failure to CONNECTION, expired
or invalid credentials (HTTP 401) to AUTHENTICATION, vendor throttling
(HTTP 429) to RATE_LIMIT, vendor 5xx to SERVER_ERROR, malformed requests
(HTTP 400) to INVALID_REQUEST, anything else to UNKNOWN. -/
def handleQuickBooksError : RawError → QuickBooksErrorType
  | RawError.network => QuickBooksErrorType.CONNECTION
  | RawError.http s =>
    if s = 401 then QuickBooksErrorType.AUTHENTICATION
    else if s = 429 then QuickBooksErrorType.RATE_LIMIT
    else if 500 ≤ s then QuickBooksErrorType.SERVER_ERROR
    else if s = 400 then QuickBooksErrorType.INVALID_REQUEST
    else QuickBooksErrorType.UNKNOWN

/-! ## Token/session client (`class QuickBooksAPI`, quickbooks-api document) -/

/-- The credential bundle held by a `QuickBooksAPI` instance: fields
`accessToken`, `refreshToken`, `realmId`, `tokenExpiresAt` (ms since epoch). -/
structure TokenState where
  accessToken : String
  refreshToken : String
  realmId : String
  tokenExpiresAt : Int
deriving DecidableEq

/-- Body of a successful response from the vendor token endpoint:
`access_token`, optional `refresh_token`, `expires_in` (seconds). -/
structure RefreshResponse where
  access_token : String
  refresh_token : Option String
  expires_in : Int
deriving DecidableEq

/-- `QuickBooksAPI.refreshAccessToken`: POSTs to the token endpoint (the
outcome `resp` is supplied by the environment). On success all three mutable
fields are updated: `accessToken := access_token`,
`refreshToken := response.data.refresh_token || this.refreshToken`,
`tokenExpiresAt := Date.now() + expires_in * 1000`. On failure the error is
logged and re-thrown; no field has been assigned, so the bundle is unchanged. -/
def refreshAccessToken (st : TokenState) (now : Int)
    (resp : Except RawError RefreshResponse) : Except RawError TokenState :=
  match resp with
  | Except.error e => Except.error e
  | Except.ok r =>
    Except.ok
      { accessToken := r.access_token
        refreshToken := jsOrString r.refresh_token st.refreshToken
        realmId := st.realmId
        tokenExpiresAt := now + r.expires_in * 1000 }

/-- `QuickBooksAPI.ensureValidToken`: refreshes exactly once when
`Date.now() >= tokenExpiresAt - 300000`, otherwise leaves the bundle alone.
Returns the resulting bundle (or the propagated refresh error) together with
the number of refresh calls that were made. -/
def ensureValidToken (st : TokenState) (now : Int)
    (resp : Except RawError RefreshResponse) :
    Except RawError TokenState × Nat :=
  if now ≥ st.tokenExpiresAt - 300000 then (refreshAccessToken st now resp, 1)
  else (Except.ok st, 0)

instance {ε α : Type} [DecidableEq ε] [DecidableEq α] : DecidableEq (Except ε α) := fun x y =>
  match x, y with
  | Except.error a, Except.error b =>
    if h : a = b then isTrue (by rw [h])
    else isFalse (by intro hh; injection hh; contradiction)
  | Except.error a, Except.ok b => isFalse (fun hh => Except.noConfusion hh)
  | Except.ok a, Except.error b => isFalse (fun hh => Except.noConfusion hh)
  | Except.ok a, Except.ok b =>
    if h : a = b then isTrue (by rw [h])
    else isFalse (by intro hh; injection hh; contradiction)

/-- Outcome of one vendor-facing client operation: its result, how many token
refresh calls it made, and the credential bundle afterwards. -/
structure OpOutcome (α : Type) where
  result : Except RawError α
  refreshCalls : Nat
  finalState : TokenState
deriving DecidableEq

/-- The shared shape of every vendor-facing operation of `QuickBooksAPI`
(`getCompanyInfo`, `getAccounts`, `getCustomers`, `getInvoices`, `getBills`,
`getPayments` and the three report getters): first `await ensureValidToken()`,
then perform the operation's own HTTP request (outcome `opResp` supplied by
the environment); an error thrown by the refresh propagates and the request
never proceeds. -/
def apiOperation {α : Type} (st : TokenState) (now : Int)
    (refreshResp : Except RawError RefreshResponse)
    (opResp : Except RawError α) : OpOutcome α :=
  match ensureValidToken st now refreshResp with
  | (Except.error e, n) => ⟨Except.error e, n, st⟩
  | (Except.ok st2, n) => ⟨opResp, n, st2⟩

/-! ## Query construction (`getInvoices` / `getBills` / `getPayments`) -/

/-- The query string built by `QuickBooksAPI.getInvoices`, `getBills` and
`getPayments` (identical logic, differing only in the entity name): start from
`select * from <entity>`; if either bound is truthy append ` WHERE `, then the
`TxnDate >= <startDate-in-single-quotes>` clause when the start bound is
truthy, then ` AND ` when both are, then the `TxnDate <= <endDate>` clause
when the end bound is truthy. -/
def txnQuery (entity : String) (startDate endDate : Option String) : String :=
  let base := "select * from " ++ entity
  if strTruthy startDate || strTruthy endDate then
    let q1 := base ++ " WHERE "
    let q2 :=
      if strTruthy startDate then
        q1 ++ "TxnDate >= " ++ (sqChar ++ startDate.getD "" ++ sqChar)
      else q1
    let q3 := if strTruthy startDate && strTruthy endDate then q2 ++ " AND " else q2
    if strTruthy endDate then
      q3 ++ "TxnDate <= " ++ (sqChar ++ endDate.getD "" ++ sqChar)
    else q3
  else base

/-- Query issued by `QuickBooksAPI.getInvoices(startDate?, endDate?)`. -/
def getInvoicesQuery (startDate endDate : Option String) : String :=
  txnQuery "Invoice" startDate endDate

/-- Query issued by `QuickBooksAPI.getBills(startDate?, endDate?)`. -/
def getBillsQuery (startDate endDate : Option String) : String :=
  txnQuery "Bill" startDate endDate

/-- Query issued by `QuickBooksAPI.getPayments(startDate?, endDate?)`. -/
def getPaymentsQuery (startDate endDate : Option String) : String :=
  txnQuery "Payment" startDate endDate

/-- Query issued by `QuickBooksAPI.getAccounts()`. -/
def getAccountsQuery : String := "select * from Account"

/-- Query issued by `QuickBooksAPI.getCustomers()`. -/
def getCustomersQuery : String := "select * from Customer"

/-! ## Vendor payload shapes accessed by the sync service -/

/-- A vendor reference object (`CustomerRef`, `VendorRef`, `PaymentMethodRef`)
with its `value` and `name` fields, each possibly absent. -/
structure EntityRef where
  value : Option String
  name : Option String
deriving DecidableEq

/-- The vendor `PrimaryEmailAddr` object (`Address` field). -/
structure EmailAddr where
  Address : Option String
deriving DecidableEq

/-- The vendor `PrimaryPhone` object (`FreeFormNumber` field). -/
structure PhoneObj where
  FreeFormNumber : Option String
deriving DecidableEq

/-- A vendor line item as accessed by `processInvoices`/`processBills`. -/
structure VendorLine where
  Description : Option String
  Amount : Option Rat
  Quantity : Option Rat
  UnitPrice : Option Rat
deriving DecidableEq

/-- A vendor `Account` object, fields accessed by `processAccounts`. -/
structure VendorAccount where
  Id : Option String
  Name : Option String
  AccountType : Option String
  AccountSubType : Option String
  CurrentBalance : Option Rat
  Active : Option Bool
deriving DecidableEq

/-- A vendor `Customer` object, fields accessed by `processCustomers`. -/
structure VendorCustomer where
  Id : Option String
  DisplayName : Option String
  CompanyName : Option String
  PrimaryEmailAddr : Option EmailAddr
  PrimaryPhone : Option PhoneObj
  Balance : Option Rat
  Active : Option Bool
deriving DecidableEq

/-- A vendor `Invoice` object, fields accessed by `processInvoices`. -/
structure VendorInvoice where
  Id : Option String
  CustomerRef : Option EntityRef
  TxnDate : Option String
  DueDate : Option String
  TotalAmt : Option Rat
  Balance : Option Rat
  Line : Option (List VendorLine)
deriving DecidableEq

/-- A vendor `Bill` object, fields accessed by `processBills`. -/
structure VendorBill where
  Id : Option String
  VendorRef : Option EntityRef
  TxnDate : Option String
  DueDate : Option String
  TotalAmt : Option Rat
  Balance : Option Rat
  Line : Option (List VendorLine)
deriving DecidableEq

/-- A vendor `Payment` object, fields accessed by `processPayments`. -/
structure VendorPayment where
  Id : Option String
  CustomerRef : Option EntityRef
  TxnDate : Option String
  TotalAmt : Option Rat
  PaymentMethodRef : Option EntityRef
deriving DecidableEq

/-- A vendor query response as checked by the `process*` guards
(`!data || !data.QueryResponse || !data.QueryResponse.<Entity>`): the body may
be falsy, the `QueryResponse` field may be absent, or the per-entity
collection inside it may be absent (`qr none`) or present (`qr (some _)`). -/
inductive VendorData (α : Type) where
  | missing : VendorData α
  | noQueryResponse : VendorData α
  | qr (coll : Option (List α)) : VendorData α
deriving DecidableEq

/-! ## Normalized records (`QuickBooksDataSync.process*`) -/

/-- Normalized account record produced by `processAccounts`. -/
structure AccountRec where
  id : Option String
  name : Option String
  type : Option String
  subType : Option String
  balance : Option Rat
  isActive : Option Bool
deriving DecidableEq

/-- Normalized customer record produced by `processCustomers`. -/
structure CustomerRec where
  id : Option String
  displayName : Option String
  companyName : Option String
  email : Option String
  phone : Option String
  balance : Option Rat
  isActive : Option Bool
deriving DecidableEq

/-- Normalized line item produced inside `processInvoices` (`processBills`
produces the same shape with `quantity` and `unitPrice` never set; for bills
those fields are simply absent from the mapped object, modelled as `none`). -/
structure LineItemRec where
  description : Option String
  amount : Option Rat
  quantity : Option Rat
  unitPrice : Option Rat
deriving DecidableEq

/-- Normalized invoice record produced by `processInvoices`. -/
structure InvoiceRec where
  id : Option String
  customerId : Option String
  customerName : Option String
  date : Option String
  dueDate : Option String
  total : Option Rat
  balance : Option Rat
  status : String
  lineItems : List LineItemRec
deriving DecidableEq

/-- Normalized bill record produced by `processBills`. -/
structure BillRec where
  id : Option String
  vendorId : Option String
  vendorName : Option String
  date : Option String
  dueDate : Option String
  total : Option Rat
  balance : Option Rat
  status : String
  lineItems : List LineItemRec
deriving DecidableEq

/-- Normalized payment record produced by `processPayments`. -/
structure PaymentRec where
  id : Option String
  customerId : Option String
  customerName : Option String
  date : Option String
  amount : Option Rat
  paymentMethod : Option String
deriving DecidableEq

/-- `QuickBooksDataSync.getInvoiceStatus`: `"Paid"` when
`invoice.Balance === 0`, else `"Unpaid"` when
`invoice.Balance === invoice.TotalAmt` (strict equality: two absent fields
compare equal, an absent field never equals `0`), else `"Partial"`. -/
def getInvoiceStatus (invoice : VendorInvoice) : String :=
  if invoice.Balance = some 0 then "Paid"
  else if invoice.Balance = invoice.TotalAmt then "Unpaid"
  else "Partial"

/-- The per-account mapping inside `processAccounts`. -/
def normalizeAccount (account : VendorAccount) : AccountRec :=
  { id := account.Id
    name := account.Name
    type := account.AccountType
    subType := account.AccountSubType
    balance := account.CurrentBalance
    isActive := account.Active }

/-- `QuickBooksDataSync.processAccounts`: guard
`!data || !data.QueryResponse || !data.QueryResponse.Account` returns `[]`,
otherwise map each account. -/
def processAccounts (data : VendorData VendorAccount) : List AccountRec :=
  match data with
  | VendorData.missing => []
  | VendorData.noQueryResponse => []
  | VendorData.qr none => []
  | VendorData.qr (some xs) => xs.map normalizeAccount

/-- The per-customer mapping inside `processCustomers` (optional chaining on
`PrimaryEmailAddr?.Address` and `PrimaryPhone?.FreeFormNumber`). -/
def normalizeCustomer (customer : VendorCustomer) : CustomerRec :=
  { id := customer.Id
    displayName := customer.DisplayName
    companyName := customer.CompanyName
    email := customer.PrimaryEmailAddr.bind EmailAddr.Address
    phone := customer.PrimaryPhone.bind PhoneObj.FreeFormNumber
    balance := customer.Balance
    isActive := customer.Active }

/-- `QuickBooksDataSync.processCustomers`. -/
def processCustomers (data : VendorData VendorCustomer) : List CustomerRec :=
  match data with
  | VendorData.missing => []
  | VendorData.noQueryResponse => []
  | VendorData.qr none => []
  | VendorData.qr (some xs) => xs.map normalizeCustomer

/-- The per-line mapping inside `processInvoices`. -/
def normalizeInvoiceLine (line : VendorLine) : LineItemRec :=
  { description := line.Description
    amount := line.Amount
    quantity := line.Quantity
    unitPrice := line.UnitPrice }

/-- The per-invoice mapping inside `processInvoices`
(`lineItems` comes from `(invoice.Line || []).map(...)`). -/
def normalizeInvoice (invoice : VendorInvoice) : InvoiceRec :=
  { id := invoice.Id
    customerId := invoice.CustomerRef.bind EntityRef.value
    customerName := invoice.CustomerRef.bind EntityRef.name
    date := invoice.TxnDate
    dueDate := invoice.DueDate
    total := invoice.TotalAmt
    balance := invoice.Balance
    status := getInvoiceStatus invoice
    lineItems := (invoice.Line.getD []).map normalizeInvoiceLine }

/-- `QuickBooksDataSync.processInvoices`. -/
def processInvoices (data : VendorData VendorInvoice) : List InvoiceRec :=
  match data with
  | VendorData.missing => []
  | VendorData.noQueryResponse => []
  | VendorData.qr none => []
  | VendorData.qr (some xs) => xs.map normalizeInvoice

/-- The per-line mapping inside `processBills` (only description and amount). -/
def normalizeBillLine (line : VendorLine) : LineItemRec :=
  { description := line.Description
    amount := line.Amount
    quantity := none
    unitPrice := none }

/-- The per-bill mapping inside `processBills`; the status is computed inline
as `bill.Balance === 0 ? "Paid" : "Unpaid"`. -/
def normalizeBill (bill : VendorBill) : BillRec :=
  { id := bill.Id
    vendorId := bill.VendorRef.bind EntityRef.value
    vendorName := bill.VendorRef.bind EntityRef.name
    date := bill.TxnDate
    dueDate := bill.DueDate
    total := bill.TotalAmt
    balance := bill.Balance
    status := if bill.Balance = some 0 then "Paid" else "Unpaid"
    lineItems := (bill.Line.getD []).map normalizeBillLine }

/-- `QuickBooksDataSync.processBills`. -/
def processBills (data : VendorData VendorBill) : List BillRec :=
  match data with
  | VendorData.missing => []
  | VendorData.noQueryResponse => []
  | VendorData.qr none => []
  | VendorData.qr (some xs) => xs.map normalizeBill

/-- The per-payment mapping inside `processPayments`. -/
def normalizePayment (payment : VendorPayment) : PaymentRec :=
  { id := payment.Id
    customerId := payment.CustomerRef.bind EntityRef.value
    customerName := payment.CustomerRef.bind EntityRef.name
    date := payment.TxnDate
    amount := payment.TotalAmt
    paymentMethod := payment.PaymentMethodRef.bind EntityRef.name }

/-- `QuickBooksDataSync.processPayments`. -/
def processPayments (data : VendorData VendorPayment) : List PaymentRec :=
  match data with
  | VendorData.missing => []
  | VendorData.noQueryResponse => []
  | VendorData.qr none => []
  | VendorData.qr (some xs) => xs.map normalizePayment

/-- Report bodies are passed through unparsed; the body is opaque here. -/
abbrev Report := String

/-- `QuickBooksDataSync.processReport`: returns the raw report data. -/
def processReport (data : Report) : Report := data

/-! ## Sync orchestrator (`class QuickBooksDataSync`) -/

/-- `SyncOptions` (data-sync document): per-category enable flags (optional
booleans, absent means falsy) and an optional date range. -/
structure SyncOptions where
  syncAccounts : Bool
  syncCustomers : Bool
  syncInvoices : Bool
  syncBills : Bool
  syncPayments : Bool
  syncReports : Bool
  startDate : Option String
  endDate : Option String
deriving DecidableEq

/-- Environment for one `syncData` run: the outcome the vendor would return
for each possible HTTP request (entity queries and report endpoints). -/
structure ApiEnv where
  accountsResp : Except RawError (VendorData VendorAccount)
  customersResp : Except RawError (VendorData VendorCustomer)
  invoicesResp : Except RawError (VendorData VendorInvoice)
  billsResp : Except RawError (VendorData VendorBill)
  paymentsResp : Except RawError (VendorData VendorPayment)
  profitAndLossResp : Except RawError Report
  balanceSheetResp : Except RawError Report
  cashFlowResp : Except RawError Report

/-- The `results` mapping built by `syncData`: a key is present exactly when
the corresponding branch ran and stored its value. -/
structure SyncResults where
  accounts : Option (List AccountRec)
  customers : Option (List CustomerRec)
  invoices : Option (List InvoiceRec)
  bills : Option (List BillRec)
  payments : Option (List PaymentRec)
  profitAndLoss : Option Report
  balanceSheet : Option Report
  cashFlow : Option Report
deriving DecidableEq

/-- The empty `results` record `{}` that `syncData` starts from. -/
def emptyResults : SyncResults := ⟨none, none, none, none, none, none, none, none⟩

/-- The value returned by `syncData`, together with what was written to the
persisted data store: on success `{success:true, data:results}` after
`storeData(results)` ran; on any thrown error
`{success:false, error:"Failed to sync data from QuickBooks"}` with nothing
stored. -/
structure SyncReturn where
  success : Bool
  data : Option SyncResults
  error : Option String
  stored : Option SyncResults
deriving DecidableEq

/-- The failure value produced by `syncData`'s catch block. -/
def failReturn : SyncReturn :=
  ⟨false, none, some "Failed to sync data from QuickBooks", none⟩

/-- The success value produced at the end of `syncData`'s try block, after
`storeData(results)` persisted the snapshot. -/
def okReturn (r : SyncResults) : SyncReturn := ⟨true, some r, none, some r⟩

/-- An HTTP request issued to the vendor during a sync. -/
inductive ApiCall where
  | query (q : String) : ApiCall
  | profitAndLossReport (startDate endDate : String) : ApiCall
  | balanceSheetReport (asOf : String) : ApiCall
  | cashFlowReport (startDate endDate : String) : ApiCall
deriving DecidableEq

/-- The method names defined on `class QuickBooksAPI` in the quickbooks-api
document; JavaScript method dispatch on a `QuickBooksAPI` instance succeeds
exactly for these names. -/
def quickBooksAPIMethods : List String :=
  ["testConnection", "getCompanyInfo", "getAccounts", "getCustomers",
   "getInvoices", "getBills", "getPayments", "getProfitAndLossReport",
   "getBalanceSheetReport", "getCashFlowReport", "ensureValidToken",
   "refreshAccessToken", "getHeaders"]

/-- Dynamic dispatch of `this.api.<name>(...)` as performed by the
orchestrator: when `name` is a method of `QuickBooksAPI` the HTTP request
`call` is issued and the environment's outcome is returned; when it is not,
the lookup yields `undefined`, the invocation throws a `TypeError`
(`Except.error none`) and no HTTP request is made. -/
def invokeApi {α : Type} (name : String) (call : ApiCall)
    (impl : Except RawError α) : Except (Option RawError) α × List ApiCall :=
  if quickBooksAPIMethods.contains name then (impl.mapError some, [call])
  else (Except.error none, [])

/-- Reports step of `syncData` (lines 64-78 of the data-sync document), then
`storeData` and the success return. Guard:
`options.syncReports && options.startDate && options.endDate`. The three
fetches invoke `this.api.getProfitAndLossReport`, `this.api.getBalanceSheet`
and `this.api.getCashFlowStatement`, in that order; the `results` keys are
`profitAndLoss`, `balanceSheet`, `cashFlow`. -/
def syncStepReports (opts : SyncOptions) (env : ApiEnv) (r : SyncResults)
    (t : List ApiCall) : SyncReturn × List ApiCall :=
  if opts.syncReports && strTruthy opts.startDate && strTruthy opts.endDate then
    match invokeApi "getProfitAndLossReport"
        (ApiCall.profitAndLossReport (opts.startDate.getD "") (opts.endDate.getD ""))
        env.profitAndLossResp with
    | (Except.error _, c1) => (failReturn, t ++ c1)
    | (Except.ok pl, c1) =>
      match invokeApi "getBalanceSheet" (ApiCall.balanceSheetReport (opts.endDate.getD ""))
          env.balanceSheetResp with
      | (Except.error _, c2) => (failReturn, t ++ c1 ++ c2)
      | (Except.ok bs, c2) =>
        match invokeApi "getCashFlowStatement"
            (ApiCall.cashFlowReport (opts.startDate.getD "") (opts.endDate.getD ""))
            env.cashFlowResp with
        | (Except.error _, c3) => (failReturn, t ++ c1 ++ c2 ++ c3)
        | (Except.ok cf, c3) =>
          (okReturn { r with
              profitAndLoss := some (processReport pl)
              balanceSheet := some (processReport bs)
              cashFlow := some (processReport cf) },
           t ++ c1 ++ c2 ++ c3)
  else (okReturn r, t)

/-- Payments step of `syncData`: `await this.api.getPayments()` (no
arguments), then `processPayments`. -/
def syncStepPayments (opts : SyncOptions) (env : ApiEnv) (r : SyncResults)
    (t : List ApiCall) : SyncReturn × List ApiCall :=
  if opts.syncPayments then
    match invokeApi "getPayments" (ApiCall.query (getPaymentsQuery none none))
        env.paymentsResp with
    | (Except.error _, c) => (failReturn, t ++ c)
    | (Except.ok d, c) =>
      syncStepReports opts env { r with payments := some (processPayments d) } (t ++ c)
  else syncStepReports opts env r t

/-- Bills step of `syncData`: `await this.api.getBills()` (no arguments),
then `processBills`. -/
def syncStepBills (opts : SyncOptions) (env : ApiEnv) (r : SyncResults)
    (t : List ApiCall) : SyncReturn × List ApiCall :=
  if opts.syncBills then
    match invokeApi "getBills" (ApiCall.query (getBillsQuery none none))
        env.billsResp with
    | (Except.error _, c) => (failReturn, t ++ c)
    | (Except.ok d, c) =>
      syncStepPayments opts env { r with bills := some (processBills d) } (t ++ c)
  else syncStepPayments opts env r t

/-- Invoices step of `syncData`: `await this.api.getInvoices()` (no
arguments), then `processInvoices`. -/
def syncStepInvoices (opts : SyncOptions) (env : ApiEnv) (r : SyncResults)
    (t : List ApiCall) : SyncReturn × List ApiCall :=
  if opts.syncInvoices then
    match invokeApi "getInvoices" (ApiCall.query (getInvoicesQuery none none))
        env.invoicesResp with
    | (Except.error _, c) => (failReturn, t ++ c)
    | (Except.ok d, c) =>
      syncStepBills opts env { r with invoices := some (processInvoices d) } (t ++ c)
  else syncStepBills opts env r t

/-- Customers step of `syncData`: `await this.api.getCustomers()`, then
`processCustomers`. -/
def syncStepCustomers (opts : SyncOptions) (env : ApiEnv) (r : SyncResults)
    (t : List ApiCall) : SyncReturn × List ApiCall :=
  if opts.syncCustomers then
    match invokeApi "getCustomers" (ApiCall.query getCustomersQuery)
        env.customersResp with
    | (Except.error _, c) => (failReturn, t ++ c)
    | (Except.ok d, c) =>
      syncStepInvoices opts env { r with customers := some (processCustomers d) } (t ++ c)
  else syncStepInvoices opts env r t

/-- Accounts step of `syncData`: `await this.api.getAccounts()`, then
`processAccounts`. -/
def syncStepAccounts (opts : SyncOptions) (env : ApiEnv) (r : SyncResults)
    (t : List ApiCall) : SyncReturn × List ApiCall :=
  if opts.syncAccounts then
    match invokeApi "getAccounts" (ApiCall.query getAccountsQuery)
        env.accountsResp with
    | (Except.error _, c) => (failReturn, t ++ c)
    | (Except.ok d, c) =>
      syncStepCustomers opts env { r with accounts := some (processAccounts d) } (t ++ c)
  else syncStepCustomers opts env r t

/-- `QuickBooksDataSync.syncData(options)`: runs the category steps in source
order inside one try block; any thrown error is caught and converted to the
generic failure value. Returns the `syncData` return value together with the
list of vendor HTTP requests that were issued. -/
def syncData (opts : SyncOptions) (env : ApiEnv) : SyncReturn × List ApiCall :=
  syncStepAccounts opts env emptyResults []

/-! ## OAuth callback route (`GET`, second document of part_000) -/

/-- Body of a successful token-exchange response: `access_token`,
`refresh_token`, `expires_in`. -/
structure TokenExchangeResponse where
  access_token : String
  refresh_token : String
  expires_in : Int
deriving DecidableEq

/-- The `authData` bundle the callback persists in the `qb_auth_data`
cookie. -/
structure AuthCookie where
  accessToken : String
  refreshToken : String
  expiresIn : Int
  realmId : String
deriving DecidableEq

/-- The response produced by the OAuth callback handler: a 400 JSON error, a
redirect to the connected page carrying the auth cookie, or a redirect to the
error page carrying the classified error type. -/
inductive CallbackResponse where
  | badRequest (error : String) : CallbackResponse
  | redirectConnected (cookie : AuthCookie) : CallbackResponse
  | redirectErrorPage (t : QuickBooksErrorType) : CallbackResponse
deriving DecidableEq

/-- HTTP status of a callback response (`NextResponse.json(..., 400)` versus
`NextResponse.redirect`, which responds with 307). -/
def CallbackResponse.status : CallbackResponse → Nat
  | CallbackResponse.badRequest _ => 400
  | CallbackResponse.redirectConnected _ => 307
  | CallbackResponse.redirectErrorPage _ => 307

/-- The OAuth callback `GET` handler: reads `code`, `state`, `realmId` from
the query string; when any is missing (falsy) it returns the 400 JSON error
without attempting the token exchange; otherwise it performs the exchange
(outcome supplied by the environment), then either sets the cookie and
redirects to the connected page, or classifies the failure and redirects to
the error page. The boolean records whether the token exchange was attempted. -/
def oauthCallbackGET (code state realmId : Option String)
    (exchange : Except RawError TokenExchangeResponse) :
    CallbackResponse × Bool :=
  if !(strTruthy code) || !(strTruthy state) || !(strTruthy realmId) then
    (CallbackResponse.badRequest "Missing required parameters", false)
  else
    match exchange with
    | Except.ok r =>
      (CallbackResponse.redirectConnected
        ⟨r.access_token, r.refresh_token, r.expires_in, realmId.getD ""⟩, true)
    | Except.error e =>
      (CallbackResponse.redirectErrorPage (handleQuickBooksError e), true)

/-! ## Theorems -/

/-- C2: for every normalized Invoice record produced by the orchestrator,
`status = "Paid"` iff `balance = 0`; `status = "Unpaid"` iff
`balance = totalAmount` and `balance ≠ 0`; in every other case
`status = "Partial"`. -/
theorem invoice_status_characterized (d : VendorData VendorInvoice)
    (rec : InvoiceRec) (h : rec ∈ processInvoices d) :
    (rec.status = "Paid" ↔ rec.balance = some 0) ∧
    (rec.status = "Unpaid" ↔ (rec.balance = rec.total ∧ rec.balance ≠ some 0)) ∧
    ((rec.balance ≠ some 0 ∧ rec.balance ≠ rec.total) → rec.status = "Partial") := by
  match d with
  | VendorData.missing => simp [processInvoices] at h
  | VendorData.noQueryResponse => simp [processInvoices] at h
  | VendorData.qr none => simp [processInvoices] at h
  | VendorData.qr (some xs) =>
    simp only [processInvoices, List.mem_map] at h
    obtain ⟨inv, hmem, rfl⟩ := h
    have hstat : (normalizeInvoice inv).status = getInvoiceStatus inv := rfl
    have hbal : (normalizeInvoice inv).balance = inv.Balance := rfl
    have htot : (normalizeInvoice inv).total = inv.TotalAmt := rfl
    rw [hstat, hbal, htot]
    unfold getInvoiceStatus
    by_cases h0 : inv.Balance = some 0
    · rw [if_pos h0]
      exact ⟨⟨fun _ => h0, fun _ => rfl⟩,
        ⟨fun hc => absurd hc (by decide), fun hc => absurd h0 hc.2⟩,
        fun hc => absurd h0 hc.1⟩
    · rw [if_neg h0]
      by_cases h1 : inv.Balance = inv.TotalAmt
      · rw [if_pos h1]
        exact ⟨⟨fun hc => absurd hc (by decide), fun hb => absurd hb h0⟩,
          ⟨fun _ => ⟨h1, h0⟩, fun _ => rfl⟩,
          fun hc => absurd h1 hc.2⟩
      · rw [if_neg h1]
        exact ⟨⟨fun hc => absurd hc (by decide), fun hb => absurd hb h0⟩,
          ⟨fun hc => absurd hc (by decide), fun hc => absurd hc.1 h1⟩,
          fun _ => rfl⟩

/-- A concrete partially paid vendor invoice (`TotalAmt=100`, `Balance=40`). -/
def invoiceSample : VendorInvoice :=
  ⟨some "3", none, none, none, some 100, some 40, none⟩

/-- Witness for `invoice_status_characterized` at a concrete input. -/
theorem invoice_status_characterized_witness :
    normalizeInvoice invoiceSample ∈
      processInvoices (VendorData.qr (some [invoiceSample])) ∧
    (((normalizeInvoice invoiceSample).status = "Paid" ↔
        (normalizeInvoice invoiceSample).balance = some 0) ∧
      ((normalizeInvoice invoiceSample).status = "Unpaid" ↔
        ((normalizeInvoice invoiceSample).balance = (normalizeInvoice invoiceSample).total ∧
          (normalizeInvoice invoiceSample).balance ≠ some 0)) ∧
      (((normalizeInvoice invoiceSample).balance ≠ some 0 ∧
          (normalizeInvoice invoiceSample).balance ≠ (normalizeInvoice invoiceSample).total) →
        (normalizeInvoice invoiceSample).status = "Partial")) :=
  ⟨by decide,
    invoice_status_characterized (VendorData.qr (some [invoiceSample]))
      (normalizeInvoice invoiceSample) (by decide)⟩

/-- C3: for every normalized Bill record produced by the orchestrator,
`status = "Paid"` iff `balance = 0`, and `status = "Unpaid"` in every other
case; a Bill's status is never `"Partial"`. -/
theorem bill_status_characterized (d : VendorData VendorBill)
    (rec : BillRec) (h : rec ∈ processBills d) :
    (rec.status = "Paid" ↔ rec.balance = some 0) ∧
    (rec.status = "Unpaid" ↔ rec.balance ≠ some 0) ∧
    rec.status ≠ "Partial" := by
  match d with
  | VendorData.missing => simp [processBills] at h
  | VendorData.noQueryResponse => simp [processBills] at h
  | VendorData.qr none => simp [processBills] at h
  | VendorData.qr (some xs) =>
    simp only [processBills, List.mem_map] at h
    obtain ⟨bill, hmem, rfl⟩ := h
    have hstat : (normalizeBill bill).status =
        (if bill.Balance = some 0 then "Paid" else "Unpaid") := rfl
    have hbal : (normalizeBill bill).balance = bill.Balance := rfl
    rw [hstat, hbal]
    by_cases h0 : bill.Balance = some 0
    · rw [if_pos h0]
      exact ⟨⟨fun _ => h0, fun _ => rfl⟩,
        ⟨fun hc => absurd hc (by decide), fun hc => absurd h0 hc⟩,
        by decide⟩
    · rw [if_neg h0]
      exact ⟨⟨fun hc => absurd hc (by decide), fun hb => absurd hb h0⟩,
        ⟨fun _ => h0, fun _ => rfl⟩,
        by decide⟩

/-- A concrete vendor bill with a nonzero balance. -/
def billSample : VendorBill :=
  ⟨some "7", none, none, none, some 250, some 250, none⟩

/-- Witness for `bill_status_characterized` at a concrete input. -/
theorem bill_status_characterized_witness :
    normalizeBill billSample ∈ processBills (VendorData.qr (some [billSample])) ∧
    (((normalizeBill billSample).status = "Paid" ↔
        (normalizeBill billSample).balance = some 0) ∧
      ((normalizeBill billSample).status = "Unpaid" ↔
        (normalizeBill billSample).balance ≠ some 0) ∧
      (normalizeBill billSample).status ≠ "Partial") :=
  ⟨by decide,
    bill_status_characterized (VendorData.qr (some [billSample]))
      (normalizeBill billSample) (by decide)⟩

/-- C7: for every category (accounts, customers, invoices, bills, payments),
normalizing a vendor payload whose collection is missing (falsy body or
absent `QueryResponse`), null/absent, or empty yields the empty sequence;
the normalizers are total, so no error is possible. -/
theorem process_empty_collection_yields_empty :
    processAccounts VendorData.missing = [] ∧
    processAccounts VendorData.noQueryResponse = [] ∧
    processAccounts (VendorData.qr none) = [] ∧
    processAccounts (VendorData.qr (some [])) = [] ∧
    processCustomers VendorData.missing = [] ∧
    processCustomers VendorData.noQueryResponse = [] ∧
    processCustomers (VendorData.qr none) = [] ∧
    processCustomers (VendorData.qr (some [])) = [] ∧
    processInvoices VendorData.missing = [] ∧
    processInvoices VendorData.noQueryResponse = [] ∧
    processInvoices (VendorData.qr none) = [] ∧
    processInvoices (VendorData.qr (some [])) = [] ∧
    processBills VendorData.missing = [] ∧
    processBills VendorData.noQueryResponse = [] ∧
    processBills (VendorData.qr none) = [] ∧
    processBills (VendorData.qr (some [])) = [] ∧
    processPayments VendorData.missing = [] ∧
    processPayments VendorData.noQueryResponse = [] ∧
    processPayments (VendorData.qr none) = [] ∧
    processPayments (VendorData.qr (some [])) = [] := by
  decide

/-- C9: for every OAuth callback request missing any of the `code`, `state`
or `realmId` query parameters, the handler returns HTTP 400 and performs no
token-exchange request. -/
theorem callback_missing_param_rejected (code state realmId : Option String)
    (exchange : Except RawError TokenExchangeResponse)
    (h : code = none ∨ state = none ∨ realmId = none) :
    (oauthCallbackGET code state realmId exchange).1.status = 400 ∧
    (oauthCallbackGET code state realmId exchange).2 = false := by
  have hguard :
      (!(strTruthy code) || !(strTruthy state) || !(strTruthy realmId)) = true := by
    rcases h with h | h | h <;> subst h <;> simp [strTruthy]
  unfold oauthCallbackGET
  rw [if_pos hguard]
  exact ⟨rfl, rfl⟩

/-- Witness for `callback_missing_param_rejected`: a request with `code` and
`state` present but `realmId` missing. -/
theorem callback_missing_param_rejected_witness :
    ((none : Option String) = none ∨ (none : Option String) = none ∨
      (none : Option String) = none) ∧
    ((oauthCallbackGET (some "authcode") (some "xyz") none
        (Except.ok ⟨"at", "rt", 3600⟩)).1.status = 400 ∧
      (oauthCallbackGET (some "authcode") (some "xyz") none
        (Except.ok ⟨"at", "rt", 3600⟩)).2 = false) :=
  ⟨Or.inl rfl,
    callback_missing_param_rejected (some "authcode") (some "xyz") none
      (Except.ok ⟨"at", "rt", 3600⟩) (Or.inr (Or.inr rfl))⟩

/-- C4 counterexample: with exactly 300000 ms left until expiry
(`expiresAt - now = 300000 ≥ 300000`), the claim says no refresh call is
made, but `ensureValidToken`'s condition `now >= tokenExpiresAt - 300000`
holds at the boundary, so the operation does make a refresh call. -/
theorem token_refresh_boundary_cex :
    ((300000 : Int) - 0 ≥ 300000) ∧
    (apiOperation ⟨"tok", "ref", "realm", 300000⟩ 0
      (Except.ok ⟨"tok2", some "ref2", 3600⟩)
      (Except.ok (0 : Nat))).refreshCalls = 1 := by
  exact ⟨by decide, rfl⟩

/-- C4 (amended): for every vendor-facing client operation, if the credential
bundle satisfies `expiresAt - now ≤ 300000` ms at call time, exactly one
token-refresh call is made before the operation's own request proceeds; if
`expiresAt - now > 300000` ms, no refresh call is made (and the operation
proceeds on the unchanged bundle). -/
theorem token_refresh_iff_within_margin {α : Type} (st : TokenState) (now : Int)
    (rr : Except RawError RefreshResponse) (opResp : Except RawError α) :
    (st.tokenExpiresAt - now ≤ 300000 →
      (apiOperation st now rr opResp).refreshCalls = 1) ∧
    (st.tokenExpiresAt - now > 300000 →
      (apiOperation st now rr opResp).refreshCalls = 0 ∧
      (apiOperation st now rr opResp).result = opResp ∧
      (apiOperation st now rr opResp).finalState = st) := by
  constructor
  · intro h
    have hge : now ≥ st.tokenExpiresAt - 300000 := by omega
    unfold apiOperation ensureValidToken
    rw [if_pos hge]
    match rr with
    | Except.error e => rfl
    | Except.ok r => rfl
  · intro h
    have hlt : ¬ now ≥ st.tokenExpiresAt - 300000 := by omega
    unfold apiOperation ensureValidToken
    rw [if_neg hlt]
    exact ⟨rfl, rfl, rfl⟩

/-- Witness for `token_refresh_iff_within_margin`: one bundle inside the
5-minute margin (refresh happens) and one outside it (no refresh). -/
theorem token_refresh_iff_within_margin_witness :
    (apiOperation ⟨"tok", "ref", "realm", 200000⟩ 0
      (Except.ok ⟨"tok2", some "ref2", 3600⟩)
      (Except.ok (0 : Nat))).refreshCalls = 1 ∧
    (apiOperation ⟨"tok", "ref", "realm", 700000⟩ 0
      (Except.ok ⟨"tok2", some "ref2", 3600⟩)
      (Except.ok (0 : Nat))).refreshCalls = 0 :=
  ⟨(token_refresh_iff_within_margin ⟨"tok", "ref", "realm", 200000⟩ 0
      (Except.ok ⟨"tok2", some "ref2", 3600⟩) (Except.ok (0 : Nat))).1 (by decide),
    ((token_refresh_iff_within_margin ⟨"tok", "ref", "realm", 700000⟩ 0
      (Except.ok ⟨"tok2", some "ref2", 3600⟩) (Except.ok (0 : Nat))).2 (by decide)).1⟩

/-- C5 counterexample: a refresh attempt that fails with an HTTP 503 leaves
the bundle unchanged, and the triggering client operation raises that same
raw error, which classifies as SERVER_ERROR — not as an Authentication-class
error, contradicting the claim that every failing refresh surfaces an
Authentication-class error. -/
theorem refresh_failure_not_always_auth_cex :
    (apiOperation ⟨"tok", "ref", "realm", 0⟩ 0
      (Except.error (RawError.http 503))
      (Except.ok (0 : Nat))).result = Except.error (RawError.http 503) ∧
    (apiOperation ⟨"tok", "ref", "realm", 0⟩ 0
      (Except.error (RawError.http 503))
      (Except.ok (0 : Nat))).finalState = ⟨"tok", "ref", "realm", 0⟩ ∧
    handleQuickBooksError (RawError.http 503) = QuickBooksErrorType.SERVER_ERROR ∧
    QuickBooksErrorType.SERVER_ERROR ≠ QuickBooksErrorType.AUTHENTICATION := by
  exact ⟨rfl, rfl, by decide, by decide⟩

/-- C5 (amended): for every failing refresh attempt, the credential bundle
(access token, refresh token, expiry instant) is left exactly as it was
before the attempt, and the client operation that triggered the refresh
raises the refresh attempt's own raw error, unclassified; that error is
Authentication-class precisely when the refresh failure itself was an
authentication failure (HTTP 401). -/
theorem refresh_failure_preserves_bundle {α : Type} (st : TokenState)
    (now : Int) (e : RawError) (opResp : Except RawError α)
    (h : now ≥ st.tokenExpiresAt - 300000) :
    (apiOperation st now (Except.error e) opResp).result = Except.error e ∧
    (apiOperation st now (Except.error e) opResp).finalState = st ∧
    (handleQuickBooksError e = QuickBooksErrorType.AUTHENTICATION ↔
      e = RawError.http 401) := by
  refine ⟨?_, ?_, ?_⟩
  · unfold apiOperation ensureValidToken refreshAccessToken
    rw [if_pos h]
  · unfold apiOperation ensureValidToken refreshAccessToken
    rw [if_pos h]
  · match e with
    | RawError.network => simp [handleQuickBooksError]
    | RawError.http s =>
      by_cases hs : s = 401
      · subst hs
        simp [handleQuickBooksError]
      · have : RawError.http s ≠ RawError.http 401 := by
          intro hc
          injection hc
          contradiction
        simp only [handleQuickBooksError, this, iff_false]
        rw [if_neg hs]
        by_cases h429 : s = 429
        · rw [if_pos h429]
          decide
        · rw [if_neg h429]
          by_cases h500 : 500 ≤ s
          · rw [if_pos h500]
            decide
          · rw [if_neg h500]
            by_cases h400 : s = 400
            · rw [if_pos h400]
              decide
            · rw [if_neg h400]
              decide

/-- Witness for `refresh_failure_preserves_bundle`: a near-expiry bundle
whose refresh fails with a network error. -/
theorem refresh_failure_preserves_bundle_witness :
    ((0 : Int) ≥ (⟨"tok", "ref", "realm", 100000⟩ : TokenState).tokenExpiresAt - 300000) ∧
    ((apiOperation ⟨"tok", "ref", "realm", 100000⟩ 0
        (Except.error RawError.network)
        (Except.ok (0 : Nat))).result = Except.error RawError.network ∧
      (apiOperation ⟨"tok", "ref", "realm", 100000⟩ 0
        (Except.error RawError.network)
        (Except.ok (0 : Nat))).finalState = ⟨"tok", "ref", "realm", 100000⟩ ∧
      (handleQuickBooksError RawError.network = QuickBooksErrorType.AUTHENTICATION ↔
        RawError.network = RawError.http 401)) :=
  ⟨by decide,
    refresh_failure_preserves_bundle ⟨"tok", "ref", "realm", 100000⟩ 0
      RawError.network (Except.ok (0 : Nat)) (by decide)⟩

/-- String concatenation is associative (via the underlying character list). -/
theorem stringAppendAssoc (a b c : String) : a ++ b ++ c = a ++ (b ++ c) := by
  rcases a with ⟨as⟩
  rcases b with ⟨bs⟩
  rcases c with ⟨cs⟩
  show String.mk ((as ++ bs) ++ cs) = String.mk (as ++ (bs ++ cs))
  rw [List.append_assoc]

/-- The four date-filter shapes of the shared query builder, for an arbitrary
entity and nonempty date strings. -/
theorem txnQuery_cases (ent s e : String) (hs : s ≠ "") (he : e ≠ "") :
    txnQuery ent (some s) (some e) =
      "select * from " ++ ent ++ " WHERE " ++ "TxnDate >= " ++ sqChar ++ s ++
        sqChar ++ " AND " ++ "TxnDate <= " ++ sqChar ++ e ++ sqChar ∧
    txnQuery ent (some s) none =
      "select * from " ++ ent ++ " WHERE " ++ "TxnDate >= " ++ sqChar ++ s ++ sqChar ∧
    txnQuery ent none (some e) =
      "select * from " ++ ent ++ " WHERE " ++ "TxnDate <= " ++ sqChar ++ e ++ sqChar ∧
    txnQuery ent none none = "select * from " ++ ent := by
  have hs' : strTruthy (some s) = true := by simp [strTruthy, hs]
  have he' : strTruthy (some e) = true := by simp [strTruthy, he]
  have hn : strTruthy none = false := rfl
  refine ⟨?_, ?_, ?_, ?_⟩
  · simp [txnQuery, hs', he', hn, stringAppendAssoc]
  · simp [txnQuery, hs', he', hn, stringAppendAssoc]
  · simp [txnQuery, hs', he', hn, stringAppendAssoc]
  · simp [txnQuery, hn]

/-- C8: for every invocation of `getInvoices`, `getBills` or `getPayments`
with nonempty date strings: with both bounds present the filter is
`WHERE TxnDate >= start AND TxnDate <= end`; with exactly one bound present
only that clause appears; with both bounds absent no `WHERE` clause is
appended to the base select query. (`sqChar` is the single-quote character
the builder wraps each date in.) -/
theorem query_date_filter_shapes (s e : String) (hs : s ≠ "") (he : e ≠ "") :
    (getInvoicesQuery (some s) (some e) =
        "select * from " ++ "Invoice" ++ " WHERE " ++ "TxnDate >= " ++ sqChar ++ s ++
          sqChar ++ " AND " ++ "TxnDate <= " ++ sqChar ++ e ++ sqChar ∧
      getInvoicesQuery (some s) none =
        "select * from " ++ "Invoice" ++ " WHERE " ++ "TxnDate >= " ++ sqChar ++ s ++ sqChar ∧
      getInvoicesQuery none (some e) =
        "select * from " ++ "Invoice" ++ " WHERE " ++ "TxnDate <= " ++ sqChar ++ e ++ sqChar ∧
      getInvoicesQuery none none = "select * from " ++ "Invoice") ∧
    (getBillsQuery (some s) (some e) =
        "select * from " ++ "Bill" ++ " WHERE " ++ "TxnDate >= " ++ sqChar ++ s ++
          sqChar ++ " AND " ++ "TxnDate <= " ++ sqChar ++ e ++ sqChar ∧
      getBillsQuery (some s) none =
        "select * from " ++ "Bill" ++ " WHERE " ++ "TxnDate >= " ++ sqChar ++ s ++ sqChar ∧
      getBillsQuery none (some e) =
        "select * from " ++ "Bill" ++ " WHERE " ++ "TxnDate <= " ++ sqChar ++ e ++ sqChar ∧
      getBillsQuery none none = "select * from " ++ "Bill") ∧
    (getPaymentsQuery (some s) (some e) =
        "select * from " ++ "Payment" ++ " WHERE " ++ "TxnDate >= " ++ sqChar ++ s ++
          sqChar ++ " AND " ++ "TxnDate <= " ++ sqChar ++ e ++ sqChar ∧
      getPaymentsQuery (some s) none =
        "select * from " ++ "Payment" ++ " WHERE " ++ "TxnDate >= " ++ sqChar ++ s ++ sqChar ∧
      getPaymentsQuery none (some e) =
        "select * from " ++ "Payment" ++ " WHERE " ++ "TxnDate <= " ++ sqChar ++ e ++ sqChar ∧
      getPaymentsQuery none none = "select * from " ++ "Payment") :=
  ⟨txnQuery_cases "Invoice" s e hs he,
    txnQuery_cases "Bill" s e hs he,
    txnQuery_cases "Payment" s e hs he⟩

/-- Witness for `query_date_filter_shapes` at concrete dates. -/
theorem query_date_filter_shapes_witness :
    ("2024-01-01" ≠ "") ∧
    getInvoicesQuery (some "2024-01-01") (some "2024-06-01") =
      "select * from " ++ "Invoice" ++ " WHERE " ++ "TxnDate >= " ++ sqChar ++
        "2024-01-01" ++ sqChar ++ " AND " ++ "TxnDate <= " ++ sqChar ++
        "2024-06-01" ++ sqChar ∧
    getPaymentsQuery none none = "select * from " ++ "Payment" :=
  ⟨by decide,
    (query_date_filter_shapes "2024-01-01" "2024-06-01" (by decide) (by decide)).1.1,
    (query_date_filter_shapes "2024-01-01" "2024-06-01" (by decide) (by decide)).2.2.2.2.2⟩

/-- If every continuation of the reports step fails, the payments step fails
(it either throws itself or delegates). -/
theorem syncStepPayments_prop (opts : SyncOptions) (env : ApiEnv)
    (H : ∀ r t, (syncStepReports opts env r t).1 = failReturn) :
    ∀ r t, (syncStepPayments opts env r t).1 = failReturn := by
  intro r t
  unfold syncStepPayments
  split
  · split
    · rfl
    · exact H _ _
  · exact H r t

/-- Propagation of downstream failure through the bills step. -/
theorem syncStepBills_prop (opts : SyncOptions) (env : ApiEnv)
    (H : ∀ r t, (syncStepPayments opts env r t).1 = failReturn) :
    ∀ r t, (syncStepBills opts env r t).1 = failReturn := by
  intro r t
  unfold syncStepBills
  split
  · split
    · rfl
    · exact H _ _
  · exact H r t

/-- Propagation of downstream failure through the invoices step. -/
theorem syncStepInvoices_prop (opts : SyncOptions) (env : ApiEnv)
    (H : ∀ r t, (syncStepBills opts env r t).1 = failReturn) :
    ∀ r t, (syncStepInvoices opts env r t).1 = failReturn := by
  intro r t
  unfold syncStepInvoices
  split
  · split
    · rfl
    · exact H _ _
  · exact H r t

/-- Propagation of downstream failure through the customers step. -/
theorem syncStepCustomers_prop (opts : SyncOptions) (env : ApiEnv)
    (H : ∀ r t, (syncStepInvoices opts env r t).1 = failReturn) :
    ∀ r t, (syncStepCustomers opts env r t).1 = failReturn := by
  intro r t
  unfold syncStepCustomers
  split
  · split
    · rfl
    · exact H _ _
  · exact H r t

/-- Propagation of downstream failure through the accounts step. -/
theorem syncStepAccounts_prop (opts : SyncOptions) (env : ApiEnv)
    (H : ∀ r t, (syncStepCustomers opts env r t).1 = failReturn) :
    ∀ r t, (syncStepAccounts opts env r t).1 = failReturn := by
  intro r t
  unfold syncStepAccounts
  split
  · split
    · rfl
    · exact H _ _
  · exact H r t

/-- An enabled accounts fetch that throws makes the accounts step fail. -/
theorem syncStepAccounts_fails (opts : SyncOptions) (env : ApiEnv)
    (h1 : opts.syncAccounts = true) (e : RawError)
    (h2 : env.accountsResp = Except.error e) :
    ∀ r t, (syncStepAccounts opts env r t).1 = failReturn := by
  intro r t
  unfold syncStepAccounts
  rw [if_pos h1, h2]
  rfl

/-- An enabled customers fetch that throws makes the customers step fail. -/
theorem syncStepCustomers_fails (opts : SyncOptions) (env : ApiEnv)
    (h1 : opts.syncCustomers = true) (e : RawError)
    (h2 : env.customersResp = Except.error e) :
    ∀ r t, (syncStepCustomers opts env r t).1 = failReturn := by
  intro r t
  unfold syncStepCustomers
  rw [if_pos h1, h2]
  rfl

/-- An enabled invoices fetch that throws makes the invoices step fail. -/
theorem syncStepInvoices_fails (opts : SyncOptions) (env : ApiEnv)
    (h1 : opts.syncInvoices = true) (e : RawError)
    (h2 : env.invoicesResp = Except.error e) :
    ∀ r t, (syncStepInvoices opts env r t).1 = failReturn := by
  intro r t
  unfold syncStepInvoices
  rw [if_pos h1, h2]
  rfl

/-- An enabled bills fetch that throws makes the bills step fail. -/
theorem syncStepBills_fails (opts : SyncOptions) (env : ApiEnv)
    (h1 : opts.syncBills = true) (e : RawError)
    (h2 : env.billsResp = Except.error e) :
    ∀ r t, (syncStepBills opts env r t).1 = failReturn := by
  intro r t
  unfold syncStepBills
  rw [if_pos h1, h2]
  rfl

/-- An enabled payments fetch that throws makes the payments step fail. -/
theorem syncStepPayments_fails (opts : SyncOptions) (env : ApiEnv)
    (h1 : opts.syncPayments = true) (e : RawError)
    (h2 : env.paymentsResp = Except.error e) :
    ∀ r t, (syncStepPayments opts env r t).1 = failReturn := by
  intro r t
  unfold syncStepPayments
  rw [if_pos h1, h2]
  rfl

/-- C6: for every sync invocation in which some enabled category's fetch
fails, the overall result is `{success:false, error:"Failed to sync data
from QuickBooks"}` with no per-category data — even for categories that had
already succeeded — and nothing is written to the persisted data store. -/
theorem sync_category_failure_aborts_all (opts : SyncOptions) (env : ApiEnv)
    (e : RawError)
    (h : (opts.syncAccounts = true ∧ env.accountsResp = Except.error e) ∨
      (opts.syncCustomers = true ∧ env.customersResp = Except.error e) ∨
      (opts.syncInvoices = true ∧ env.invoicesResp = Except.error e) ∨
      (opts.syncBills = true ∧ env.billsResp = Except.error e) ∨
      (opts.syncPayments = true ∧ env.paymentsResp = Except.error e)) :
    (syncData opts env).1 =
      ⟨false, none, some "Failed to sync data from QuickBooks", none⟩ := by
  show (syncData opts env).1 = failReturn
  unfold syncData
  rcases h with ⟨h1, h2⟩ | ⟨h1, h2⟩ | ⟨h1, h2⟩ | ⟨h1, h2⟩ | ⟨h1, h2⟩
  · exact syncStepAccounts_fails opts env h1 e h2 emptyResults []
  · exact syncStepAccounts_prop opts env
      (syncStepCustomers_fails opts env h1 e h2) emptyResults []
  · exact syncStepAccounts_prop opts env
      (syncStepCustomers_prop opts env
        (syncStepInvoices_fails opts env h1 e h2)) emptyResults []
  · exact syncStepAccounts_prop opts env
      (syncStepCustomers_prop opts env
        (syncStepInvoices_prop opts env
          (syncStepBills_fails opts env h1 e h2))) emptyResults []
  · exact syncStepAccounts_prop opts env
      (syncStepCustomers_prop opts env
        (syncStepInvoices_prop opts env
          (syncStepBills_prop opts env
            (syncStepPayments_fails opts env h1 e h2)))) emptyResults []

/-- A configuration enabling all five entity categories but not reports. -/
def optsAllEntities : SyncOptions :=
  ⟨true, true, true, true, true, false, none, none⟩

/-- An environment in which only the invoices fetch fails (HTTP 500), while
every other call would succeed. -/
def envInvoicesFail : ApiEnv :=
  ⟨Except.ok (VendorData.qr (some [])), Except.ok (VendorData.qr (some [])),
    Except.error (RawError.http 500), Except.ok (VendorData.qr (some [])),
    Except.ok (VendorData.qr (some [])), Except.ok "", Except.ok "", Except.ok ""⟩

/-- Witness for `sync_category_failure_aborts_all`: accounts and customers
succeed first, then the enabled invoices fetch fails; the run aborts with
the generic failure and stores nothing. -/
theorem sync_category_failure_aborts_all_witness :
    (optsAllEntities.syncInvoices = true ∧
      envInvoicesFail.invoicesResp = Except.error (RawError.http 500)) ∧
    (syncData optsAllEntities envInvoicesFail).1 =
      ⟨false, none, some "Failed to sync data from QuickBooks", none⟩ :=
  ⟨⟨rfl, rfl⟩,
    sync_category_failure_aborts_all optsAllEntities envInvoicesFail
      (RawError.http 500) (Or.inr (Or.inr (Or.inl ⟨rfl, rfl⟩)))⟩

/-- A configuration enabling only the reports category, with both dates set. -/
def optsReportsOnly : SyncOptions :=
  ⟨false, false, false, false, false, true, some "2024-01-01", some "2024-06-01"⟩

/-- An environment in which every vendor call would succeed, including all
three report endpoints. -/
def envAllOk : ApiEnv :=
  ⟨Except.ok (VendorData.qr (some [])), Except.ok (VendorData.qr (some [])),
    Except.ok (VendorData.qr (some [])), Except.ok (VendorData.qr (some [])),
    Except.ok (VendorData.qr (some [])), Except.ok "PL", Except.ok "BS",
    Except.ok "CF"⟩

/-- C1 (code bug): with the `reports` flag enabled and both dates present,
and with every vendor endpoint answering successfully, `syncData` still
returns the generic failure with nothing stored, and the only vendor request
issued for reports is the profit-and-loss one: the orchestrator invokes
`this.api.getBalanceSheet` and `this.api.getCashFlowStatement`, neither of
which is a method of `QuickBooksAPI` (which defines `getBalanceSheetReport`
and `getCashFlowReport`), so the dispatch throws and the catch block converts
the whole sync into a failure; the balance-sheet and cash-flow reports are
never fetched and no report body is ever stored. -/
theorem reports_branch_always_fails :
    syncData optsReportsOnly envAllOk =
      (⟨false, none, some "Failed to sync data from QuickBooks", none⟩,
        [ApiCall.profitAndLossReport "2024-01-01" "2024-06-01"]) ∧
    quickBooksAPIMethods.contains "getProfitAndLossReport" = true ∧
    quickBooksAPIMethods.contains "getBalanceSheet" = false ∧
    quickBooksAPIMethods.contains "getCashFlowStatement" = false ∧
    quickBooksAPIMethods.contains "getBalanceSheetReport" = true ∧
    quickBooksAPIMethods.contains "getCashFlowReport" = true :=
  ⟨rfl, rfl, rfl, rfl, rfl, rfl⟩

/-- The only vendor requests a sync run can ever issue: the five unfiltered
entity queries (the orchestrator passes no arguments to `getInvoices`,
`getBills`, `getPayments`) and the profit-and-loss report call for the
configured dates. -/
def allowedCall (opts : SyncOptions) (c : ApiCall) : Prop :=
  c = ApiCall.query getAccountsQuery ∨
  c = ApiCall.query getCustomersQuery ∨
  c = ApiCall.query (getInvoicesQuery none none) ∨
  c = ApiCall.query (getBillsQuery none none) ∨
  c = ApiCall.query (getPaymentsQuery none none) ∨
  c = ApiCall.profitAndLossReport (opts.startDate.getD "") (opts.endDate.getD "")

/-- Every request the reports step adds to the trace is an allowed call. -/
theorem syncStepReports_trace (opts : SyncOptions) (env : ApiEnv) :
    ∀ r t, (∀ c ∈ t, allowedCall opts c) →
      ∀ c ∈ (syncStepReports opts env r t).2, allowedCall opts c := by
  intro r t ht c hc
  unfold syncStepReports at hc
  by_cases hg :
      (opts.syncReports && strTruthy opts.startDate && strTruthy opts.endDate) = true
  · rw [if_pos hg] at hc
    rw [show invokeApi "getProfitAndLossReport"
        (ApiCall.profitAndLossReport (opts.startDate.getD "") (opts.endDate.getD ""))
        env.profitAndLossResp =
        (env.profitAndLossResp.mapError some,
          [ApiCall.profitAndLossReport (opts.startDate.getD "") (opts.endDate.getD "")])
        from rfl] at hc
    rw [show invokeApi "getBalanceSheet"
        (ApiCall.balanceSheetReport (opts.endDate.getD "")) env.balanceSheetResp =
        ((Except.error none : Except (Option RawError) Report), ([] : List ApiCall))
        from rfl] at hc
    rcases henv : env.profitAndLossResp with e1 | pl
    · rw [henv] at hc
      rcases List.mem_append.mp hc with h | h
      · exact ht c h
      · rcases List.mem_singleton.mp h with rfl
        exact Or.inr (Or.inr (Or.inr (Or.inr (Or.inr rfl))))
    · rw [henv] at hc
      rcases List.mem_append.mp hc with h | h
      · rcases List.mem_append.mp h with h | h
        · exact ht c h
        · rcases List.mem_singleton.mp h with rfl
          exact Or.inr (Or.inr (Or.inr (Or.inr (Or.inr rfl))))
      · exact absurd h (List.not_mem_nil c)
  · rw [if_neg hg] at hc
    exact ht c hc

/-- Every request the payments step adds to the trace is an allowed call. -/
theorem syncStepPayments_trace (opts : SyncOptions) (env : ApiEnv) :
    ∀ r t, (∀ c ∈ t, allowedCall opts c) →
      ∀ c ∈ (syncStepPayments opts env r t).2, allowedCall opts c := by
  intro r t ht c hc
  unfold syncStepPayments at hc
  by_cases hg : opts.syncPayments = true
  · rw [if_pos hg] at hc
    rw [show invokeApi "getPayments" (ApiCall.query (getPaymentsQuery none none))
        env.paymentsResp =
        (env.paymentsResp.mapError some, [ApiCall.query (getPaymentsQuery none none)])
        from rfl] at hc
    have hstep : ∀ c' ∈ t ++ [ApiCall.query (getPaymentsQuery none none)],
        allowedCall opts c' := by
      intro c' hc'
      rcases List.mem_append.mp hc' with h | h
      · exact ht c' h
      · rcases List.mem_singleton.mp h with rfl
        exact Or.inr (Or.inr (Or.inr (Or.inr (Or.inl rfl))))
    rcases henv : env.paymentsResp with e1 | d
    · rw [henv] at hc
      exact hstep c hc
    · rw [henv] at hc
      exact syncStepReports_trace opts env _ _ hstep c hc
  · rw [if_neg hg] at hc
    exact syncStepReports_trace opts env _ _ ht c hc

/-- Every request the bills step adds to the trace is an allowed call. -/
theorem syncStepBills_trace (opts : SyncOptions) (env : ApiEnv) :
    ∀ r t, (∀ c ∈ t, allowedCall opts c) →
      ∀ c ∈ (syncStepBills opts env r t).2, allowedCall opts c := by
  intro r t ht c hc
  unfold syncStepBills at hc
  by_cases hg : opts.syncBills = true
  · rw [if_pos hg] at hc
    rw [show invokeApi "getBills" (ApiCall.query (getBillsQuery none none))
        env.billsResp =
        (env.billsResp.mapError some, [ApiCall.query (getBillsQuery none none)])
        from rfl] at hc
    have hstep : ∀ c' ∈ t ++ [ApiCall.query (getBillsQuery none none)],
        allowedCall opts c' := by
      intro c' hc'
      rcases List.mem_append.mp hc' with h | h
      · exact ht c' h
      · rcases List.mem_singleton.mp h with rfl
        exact Or.inr (Or.inr (Or.inr (Or.inl rfl)))
    rcases henv : env.billsResp with e1 | d
    · rw [henv] at hc
      exact hstep c hc
    · rw [henv] at hc
      exact syncStepPayments_trace opts env _ _ hstep c hc
  · rw [if_neg hg] at hc
    exact syncStepPayments_trace opts env _ _ ht c hc

/-- Every request the invoices step adds to the trace is an allowed call. -/
theorem syncStepInvoices_trace (opts : SyncOptions) (env : ApiEnv) :
    ∀ r t, (∀ c ∈ t, allowedCall opts c) →
      ∀ c ∈ (syncStepInvoices opts env r t).2, allowedCall opts c := by
  intro r t ht c hc
  unfold syncStepInvoices at hc
  by_cases hg : opts.syncInvoices = true
  · rw [if_pos hg] at hc
    rw [show invokeApi "getInvoices" (ApiCall.query (getInvoicesQuery none none))
        env.invoicesResp =
        (env.invoicesResp.mapError some, [ApiCall.query (getInvoicesQuery none none)])
        from rfl] at hc
    have hstep : ∀ c' ∈ t ++ [ApiCall.query (getInvoicesQuery none none)],
        allowedCall opts c' := by
      intro c' hc'
      rcases List.mem_append.mp hc' with h | h
      · exact ht c' h
      · rcases List.mem_singleton.mp h with rfl
        exact Or.inr (Or.inr (Or.inl rfl))
    rcases henv : env.invoicesResp with e1 | d
    · rw [henv] at hc
      exact hstep c hc
    · rw [henv] at hc
      exact syncStepBills_trace opts env _ _ hstep c hc
  · rw [if_neg hg] at hc
    exact syncStepBills_trace opts env _ _ ht c hc

/-- Every request the customers step adds to the trace is an allowed call. -/
theorem syncStepCustomers_trace (opts : SyncOptions) (env : ApiEnv) :
    ∀ r t, (∀ c ∈ t, allowedCall opts c) →
      ∀ c ∈ (syncStepCustomers opts env r t).2, allowedCall opts c := by
  intro r t ht c hc
  unfold syncStepCustomers at hc
  by_cases hg : opts.syncCustomers = true
  · rw [if_pos hg] at hc
    rw [show invokeApi "getCustomers" (ApiCall.query getCustomersQuery)
        env.customersResp =
        (env.customersResp.mapError some, [ApiCall.query getCustomersQuery])
        from rfl] at hc
    have hstep : ∀ c' ∈ t ++ [ApiCall.query getCustomersQuery],
        allowedCall opts c' := by
      intro c' hc'
      rcases List.mem_append.mp hc' with h | h
      · exact ht c' h
      · rcases List.mem_singleton.mp h with rfl
        exact Or.inr (Or.inl rfl)
    rcases henv : env.customersResp with e1 | d
    · rw [henv] at hc
      exact hstep c hc
    · rw [henv] at hc
      exact syncStepInvoices_trace opts env _ _ hstep c hc
  · rw [if_neg hg] at hc
    exact syncStepInvoices_trace opts env _ _ ht c hc

/-- Every request the accounts step adds to the trace is an allowed call. -/
theorem syncStepAccounts_trace (opts : SyncOptions) (env : ApiEnv) :
    ∀ r t, (∀ c ∈ t, allowedCall opts c) →
      ∀ c ∈ (syncStepAccounts opts env r t).2, allowedCall opts c := by
  intro r t ht c hc
  unfold syncStepAccounts at hc
  by_cases hg : opts.syncAccounts = true
  · rw [if_pos hg] at hc
    rw [show invokeApi "getAccounts" (ApiCall.query getAccountsQuery)
        env.accountsResp =
        (env.accountsResp.mapError some, [ApiCall.query getAccountsQuery])
        from rfl] at hc
    have hstep : ∀ c' ∈ t ++ [ApiCall.query getAccountsQuery],
        allowedCall opts c' := by
      intro c' hc'
      rcases List.mem_append.mp hc' with h | h
      · exact ht c' h
      · rcases List.mem_singleton.mp h with rfl
        exact Or.inl rfl
    rcases henv : env.accountsResp with e1 | d
    · rw [henv] at hc
      exact hstep c hc
    · rw [henv] at hc
      exact syncStepCustomers_trace opts env _ _ hstep c hc
  · rw [if_neg hg] at hc
    exact syncStepCustomers_trace opts env _ _ ht c hc

/-- C10: for every sync invocation, every vendor request issued is either one
of the five unfiltered entity queries — in particular the invoice, bill and
payment queries are always the argument-less `txnQuery <entity> none none`
with no `WHERE` clause, so the configured `startDate`/`endDate` never filter
the transaction queries — or the profit-and-loss report call, the only issued
request that depends on the configured date range. -/
theorem sync_transaction_queries_unfiltered (opts : SyncOptions) (env : ApiEnv)
    (c : ApiCall) (h : c ∈ (syncData opts env).2) :
    c = ApiCall.query getAccountsQuery ∨
    c = ApiCall.query getCustomersQuery ∨
    c = ApiCall.query (getInvoicesQuery none none) ∨
    c = ApiCall.query (getBillsQuery none none) ∨
    c = ApiCall.query (getPaymentsQuery none none) ∨
    c = ApiCall.profitAndLossReport (opts.startDate.getD "") (opts.endDate.getD "") :=
  syncStepAccounts_trace opts env emptyResults []
    (fun c' hc' => absurd hc' (List.not_mem_nil c')) c h

/-- A configuration enabling only invoices, with a date range configured. -/
def optsInvoicesDated : SyncOptions :=
  ⟨false, false, true, false, false, false, some "2024-01-01", some "2024-06-01"⟩

/-- Witness for `sync_transaction_queries_unfiltered`: with invoices enabled
and a date range configured, the issued invoice query is still the
unfiltered one. -/
theorem sync_transaction_queries_unfiltered_witness :
    ApiCall.query (getInvoicesQuery none none) ∈
      (syncData optsInvoicesDated envAllOk).2 ∧
    (ApiCall.query (getInvoicesQuery none none) = ApiCall.query getAccountsQuery ∨
      ApiCall.query (getInvoicesQuery none none) = ApiCall.query getCustomersQuery ∨
      ApiCall.query (getInvoicesQuery none none) =
        ApiCall.query (getInvoicesQuery none none) ∨
      ApiCall.query (getInvoicesQuery none none) =
        ApiCall.query (getBillsQuery none none) ∨
      ApiCall.query (getInvoicesQuery none none) =
        ApiCall.query (getPaymentsQuery none none) ∨
      ApiCall.query (getInvoicesQuery none none) =
        ApiCall.profitAndLossReport (optsInvoicesDated.startDate.getD "")
          (optsInvoicesDated.endDate.getD "")) :=
  ⟨by decide,
    sync_transaction_queries_unfiltered optsInvoicesDated envAllOk
      (ApiCall.query (getInvoicesQuery none none)) (by decide)⟩
